import Mathlib

/-!
Verification of the industrial-product-scraper pipeline
(`src/scraper/{crawler,parser,downloader,schema}.py`) against its
natural-language specification.

The Python code is shallowly embedded: JSON-like Python values become the
inductive type `Val` (dicts are insertion-ordered association lists, as
Python dicts are), fallible code returns `Except PyExn`, network and DOM
effects are passed in explicitly as model parameters, and Python `float`
quantities are modelled by `ℚ` (the quantities handled by the code are
short decimal literals, for which the rational model agrees with the
binary float on every formatting boundary exercised here).
-/

namespace Scraper

/-- Exceptions that the embedded Python code can raise. -/
inductive PyExn where
  | attributeError
  | keyError
  | typeError
  | indexError
  | httpError
  | valueError
  | runtimeError
  deriving DecidableEq, Repr

/-- JSON-like Python values: `None`, strings, numbers, booleans, lists and
insertion-ordered string-keyed dicts. -/
inductive Val where
  | null
  | str (s : String)
  | num (q : ℚ)
  | bool (b : Bool)
  | vlist (xs : List Val)
  | vdict (kvs : List (String × Val))
  deriving Repr

/-- Python dict lookup `d[k]` on the underlying association list:
first (equivalently only, keys being unique) binding wins. -/
def alookup (kvs : List (String × Val)) (k : String) : Option Val :=
  match kvs with
  | [] => Option.none
  | (k', v) :: rest => if k' = k then some v else alookup rest k

/-- Python dict assignment `d[k] = v`: overwrite in place, keeping the
key's original position, else append at the end. -/
def ainsert (kvs : List (String × Val)) (k : String) (v : Val) : List (String × Val) :=
  match kvs with
  | [] => [(k, v)]
  | (k', v') :: rest => if k' = k then (k, v) :: rest else (k', v') :: ainsert rest k v

/-- Python truthiness of the values relevant here: `None`, `""`, `[]`, a
zero number, `False` and `\x7b\x7d` are falsy. -/
def vtruthy : Val → Bool
  | .null => false
  | .str s => s ≠ ""
  | .num q => q ≠ 0
  | .bool b => b
  | .vlist xs => !xs.isEmpty
  | .vdict kvs => !kvs.isEmpty

/-! ## schema.py -/

/-- Digits-to-number helper for the decimal parser. -/
def digitsToNat (ds : List Char) : Nat :=
  ds.foldl (fun n c => 10 * n + (c.toNat - 48)) 0

/-- Syntactic part of the decimal parser: negative flag, integer part,
fraction part and fraction length of `[+-]? digits [. digits]`
(with at least one digit); anything else — the empty string, unit text
such as `"EA"`, anything non-numeric — yields `Option.none`, the model
of `ValueError`. -/
def parseDecParts? (s : String) : Option (Bool × Nat × Nat × Nat) :=
  let cs := s.toList
  let signAndRest : Bool × List Char :=
    match cs with
    | '-' :: rest => (true, rest)
    | '+' :: rest => (false, rest)
    | _ => (false, cs)
  let neg := signAndRest.1
  let body := signAndRest.2
  let ip := body.takeWhile (fun c => c ≠ '.')
  let rest := body.dropWhile (fun c => c ≠ '.')
  let parseParts (ip fp : List Char) : Option (Bool × Nat × Nat × Nat) :=
    if ip.all Char.isDigit && fp.all Char.isDigit && decide (0 < ip.length + fp.length) then
      some (neg, digitsToNat ip, digitsToNat fp, fp.length)
    else Option.none
  match rest with
  | [] => parseParts ip []
  | _ :: fp => if fp.contains '.' then Option.none else parseParts ip fp

/-- Value of a parsed decimal. -/
def partsToRat (p : Bool × Nat × Nat × Nat) : ℚ :=
  (if p.1 then -1 else 1) * ((p.2.1 : ℚ) + (p.2.2.1 : ℚ) / 10 ^ p.2.2.2)

/-- Model of Python `float(s)` on the plain decimal grammar. -/
def parseDecimal? (s : String) : Option ℚ :=
  (parseDecParts? s).map partsToRat

/-- Model of Python `f"\x7bx:.3f\x7d"`: fixed-point with three decimals.
(The model rounds exact halves up; the floats actually formatted by the
code are sums of short decimal quantities, never exact binary halves.) -/
def fmt3 (q : ℚ) : String :=
  let n : Int := Int.floor (q * 1000 + 1 / 2)
  let sign := if n < 0 then "-" else ""
  let a := n.natAbs
  let frac := a % 1000
  let fracStr :=
    if frac < 10 then "00" ++ toString frac
    else if frac < 100 then "0" ++ toString frac
    else toString frac
  sign ++ toString (a / 1000) ++ "." ++ fracStr

/-- Character-list worker for `pySplitWs`; `acc` holds the current word
reversed. -/
def splitWsAux : List Char → List Char → List String
  | [], acc => if acc.isEmpty then [] else [String.mk acc.reverse]
  | c :: cs, acc =>
    if c.isWhitespace then
      if acc.isEmpty then splitWsAux cs []
      else String.mk acc.reverse :: splitWsAux cs []
    else splitWsAux cs (c :: acc)

/-- Model of Python `s.split()`: split on whitespace runs, dropping
empty pieces. -/
def pySplitWs (s : String) : List String :=
  splitWsAux s.toList []

/-- One raw bill-of-materials line as `deduplicate_bom` reads it: each
field via `item.get`, so each may be absent. -/
structure BomItem where
  part_number : Option String
  description : Option String
  quantity : Option String
  deriving DecidableEq, Repr

/-- One deduplicated bill-of-materials line as `deduplicate_bom` emits it. -/
structure BomOut where
  part_number : Option String
  description : String
  quantity : String
  deriving DecidableEq, Repr

/-- Quantity magnitude of one raw line:
`float(qty_raw.split()[0])` with `ValueError`/`IndexError` giving `0.0`,
where `qty_raw = item.get("quantity", "0")`. -/
def qtyOf (it : BomItem) : ℚ :=
  match pySplitWs (it.quantity.getD "0") with
  | [] => 0
  | tok :: _ => (parseDecimal? tok).getD 0

/-- The `grouped` defaultdict update of `deduplicate_bom`: set the
description and add the quantity at the key's binding, creating the
binding at the end on first sight (Python dicts preserve insertion
order). -/
def bomUpd (acc : List (Option String × String × ℚ)) (k : Option String)
    (d : String) (q : ℚ) : List (Option String × String × ℚ) :=
  match acc with
  | [] => [(k, d, q)]
  | e :: rest => if e.1 = k then (k, d, e.2.2 + q) :: rest else e :: bomUpd rest k d q

/-- Model of `schema.deduplicate_bom`: group by `part_number`, overwrite
the description, sum the parsed quantities, then emit
`f"\x7bqty:.3f\x7d EA"` per group in insertion order. -/
def deduplicate_bom (bom : List BomItem) : List BomOut :=
  let grouped := bom.foldl
    (fun acc it => bomUpd acc it.part_number (it.description.getD "") (qtyOf it)) []
  grouped.map (fun e => ⟨e.1, e.2.1, fmt3 e.2.2 ++ " EA"⟩)

/-- Specification-side grouping keys: distinct `part_number`s in order of
first occurrence. -/
def bomKeys (bom : List BomItem) : List (Option String) :=
  bom.foldl (fun ks it => if it.part_number ∈ ks then ks else ks ++ [it.part_number]) []

/-- Specification-side group of one key: the raw lines carrying it, in order. -/
def bomGroupOf (bom : List BomItem) (k : Option String) : List BomItem :=
  bom.filter (fun it => it.part_number = k)

/-- Specification-side restatement of the claimed BOM deduplication:
per first-occurrence key, the last-seen description and the formatted
sum of parsed quantities. -/
def bomDedupSpec (bom : List BomItem) : List BomOut :=
  (bomKeys bom).map fun k =>
    let grp := bomGroupOf bom k
    ⟨k, ((grp.map (fun it => it.description.getD "")).getLast?.getD ""),
      fmt3 ((grp.map qtyOf).sum) ++ " EA"⟩

/-- Specification-side data of one group: last-seen description and sum of
parsed quantity magnitudes. -/
def bomG (bom : List BomItem) (k : Option String) : String × ℚ :=
  (((bomGroupOf bom k).map (fun it => it.description.getD "")).getLast?.getD "",
    ((bomGroupOf bom k).map qtyOf).sum)

/-- Model of `schema.py`'s emptiness test
`cleaned_value not in [None, "", [], \x7b\x7d]`. -/
def isEmptyVal : Val → Bool
  | .null => true
  | .str s => s = ""
  | .vlist xs => xs.isEmpty
  | .vdict kvs => kvs.isEmpty
  | _ => false

mutual

/-- Model of `schema.remove_empty_fields`: recursively drop dict entries
and list elements whose cleaned value is `None`, `""`, `[]` or `\x7b\x7d`;
return primitives as-is. -/
def remove_empty_fields : Val → Val
  | .vdict kvs => .vdict (removePairs kvs)
  | .vlist xs => .vlist (removeElems xs)
  | v => v

/-- The dict branch of `remove_empty_fields`, entry by entry in order. -/
def removePairs : List (String × Val) → List (String × Val)
  | [] => []
  | (k, v) :: rest =>
    let cv := remove_empty_fields v
    if isEmptyVal cv then removePairs rest else (k, cv) :: removePairs rest

/-- The list branch of `remove_empty_fields`, element by element in order. -/
def removeElems : List Val → List Val
  | [] => []
  | v :: rest =>
    let cv := remove_empty_fields v
    if isEmptyVal cv then removeElems rest else cv :: removeElems rest

end

/-! ## crawler.py — API pagination
(`Crawler.get_products`, `Crawler.fetch_category_products_and_codes`).
The network is a model parameter `net : Nat → ApiOutcome` giving, per
page index, either the parsed JSON body of a 2xx response or a request
failure (network error, timeout, or retries-exhausted server error —
everything `requests.RequestException` covers). -/

/-- Outcome of one `session.get` on the products API. -/
inductive ApiOutcome where
  | success (body : Val)
  | failure
  deriving Repr

/-- Model of `Crawler.get_products`: the parsed body on success; on any
request error, the logged fallback
`\x7b"results": \x7b"matches": []\x7d\x7d`. -/
def get_products (net : Nat → ApiOutcome) (page_index : Nat) : Val :=
  match net page_index with
  | .success body => body
  | .failure => Val.vdict [("results", Val.vdict [("matches", Val.vlist [])])]

/-- Model of `products = data["results"]["matches"]` under
`except Exception: products = []` — a missing key or non-dict level
raises, is caught, and gives `[]`. (Bodies whose `matches` is present
but not a list are outside the model.) -/
def matchesOf (data : Val) : List Val :=
  match data with
  | .vdict kvs =>
    match alookup kvs "results" with
    | some (.vdict rkvs) =>
      match alookup rkvs "matches" with
      | some (.vlist xs) => xs
      | _ => []
    | _ => []
  | _ => []

/-- Model of `[product["code"] for product in products]`: a non-dict
product raises `TypeError`, a dict without `"code"` raises `KeyError`;
the first offender in order wins. -/
def codesOfT : List Val → Except PyExn (List Val)
  | [] => .ok []
  | .vdict kvs :: rest =>
    match alookup kvs "code" with
    | some v => (codesOfT rest).map (fun cs => v :: cs)
    | Option.none => .error .keyError
  | _ :: _ => .error .typeError

/-- Does a match object carry a `"code"` key? -/
def isObjWithCode : Val → Bool
  | .vdict kvs => (alookup kvs "code").isSome
  | _ => false

/-- Total code extractor used to state what `codesOfT` returns on
well-formed matches. -/
def codeOf : Val → Val
  | .vdict kvs => (alookup kvs "code").getD Val.null
  | _ => Val.null

/-- Accumulator of `fetch_category_products_and_codes`, plus the list of
page indices actually requested (instrumentation for the call-count
post-condition). -/
structure FetchAcc where
  all_codes : List Val
  all_products : List Val
  requested : List Nat
  deriving Repr

/-- Model of the `while True` pagination loop of
`Crawler.fetch_category_products_and_codes`, with explicit fuel for the
unbounded Python loop: the `Bool` is `true` when the loop exited through
its `break` (empty `matches`), `false` only when the fuel ran out (a
model artifact — the theorems always supply enough fuel). -/
def fetchLoop (net : Nat → ApiOutcome) :
    Nat → Nat → FetchAcc → Except PyExn (FetchAcc × Bool)
  | 0, _, acc => .ok (acc, false)
  | fuel + 1, page_index, acc =>
    let acc1 : FetchAcc := { acc with requested := acc.requested ++ [page_index] }
    let products := matchesOf (get_products net page_index)
    if products.isEmpty then .ok (acc1, true)
    else
      match codesOfT products with
      | .error .typeError =>
        fetchLoop net fuel (page_index + 1)
          { acc1 with all_products := acc1.all_products ++ products }
      | .error e => .error e
      | .ok codes =>
        fetchLoop net fuel (page_index + 1)
          { acc1 with
            all_codes := acc1.all_codes ++ codes,
            all_products := acc1.all_products ++ products }

/-- Model of `Crawler.fetch_category_products_and_codes` for one category:
paginate from page 0 until the first empty `matches`. -/
def fetch_category_products_and_codes (net : Nat → ApiOutcome) (fuel : Nat) :
    Except PyExn (FetchAcc × Bool) :=
  fetchLoop net fuel 0 ⟨[], [], []⟩

/-- Example network for the pagination claims: two pages of ten matches
each, then an empty page (the spec's 10, 10, 0 example). -/
def exNet (page_index : Nat) : ApiOutcome :=
  if page_index < 2 then
    .success (Val.vdict [("results", Val.vdict [("matches",
      Val.vlist ((List.range 10).map (fun i =>
        Val.vdict [("code", Val.str ("M" ++ toString (10 * page_index + i)))])))])])
  else
    .success (Val.vdict [("results", Val.vdict [("matches", Val.vlist [])])])

/-- Example network for the error-page claims: page 0 has one product,
page 1 fails at request level, page 2 has another product. -/
def cexNet (page_index : Nat) : ApiOutcome :=
  if page_index = 0 then
    .success (Val.vdict [("results", Val.vdict [("matches",
      Val.vlist [Val.vdict [("code", Val.str "X0")]])])])
  else if page_index = 1 then .failure
  else
    .success (Val.vdict [("results", Val.vdict [("matches",
      Val.vlist [Val.vdict [("code", Val.str "X2")]])])])

/-! ## crawler.py — run and browser lifecycle
(`Crawler.run`, `Crawler.setup_browser`, `Crawler.teardown_browser`).
The attributes `self.playwright`, `self.browser`, `self.page` exist only
once their assignment in `setup_browser` has executed; reading a missing
attribute raises `AttributeError`. `find_categories` together with
`scrape_products` is abstracted as the environment's `body` outcome —
claim C6 is about the setup/teardown boundary of `run`, not about their
internals. -/

/-- Which of the crawler's browser attributes have been assigned. -/
structure CrawlerAttrs where
  playwright : Bool
  browser : Bool
  page : Bool
  deriving Repr, DecidableEq

/-- Environment of one `Crawler.run` call: which setup steps succeed,
and what the post-setup body does. -/
structure BrowserEnv where
  startOk : Bool
  launchOk : Bool
  newPageOk : Bool
  body : Except Unit (List String × List Val)

/-- Model of `Crawler.setup_browser`: `sync_playwright().start()`, then
`playwright.firefox.launch(...)`, then `browser.new_page()`; each
assignment happens only if the call before it succeeded, and a failing
call raises out of the method. -/
def setup_browser (env : BrowserEnv) (st : CrawlerAttrs) :
    CrawlerAttrs × Option PyExn :=
  if env.startOk = false then (st, some .runtimeError)
  else
    let st1 := { st with playwright := true }
    if env.launchOk = false then (st1, some .runtimeError)
    else
      let st2 := { st1 with browser := true }
      if env.newPageOk = false then (st2, some .runtimeError)
      else ({ st2 with page := true }, Option.none)

/-- Model of `Crawler.teardown_browser`: `self.browser.close()` then
`self.playwright.stop()` — reading either attribute before it was ever
assigned raises `AttributeError`. -/
def teardown_browser (st : CrawlerAttrs) : Option PyExn :=
  if st.browser = false then some .attributeError
  else if st.playwright = false then some .attributeError
  else Option.none

/-- Return value of `Crawler.run`: the normal
`return self.products, self.product_matches` pair, or the handler's
`return []` — a single empty list, not a pair. -/
inductive RunReturn where
  | pair (products : List String) (product_matches : List Val)
  | single_empty_list
  deriving Repr

/-- Model of `Crawler.run`: `try: setup_browser; find_categories;
scrape_products except Exception: return [] finally: teardown_browser()`
with Python semantics — an exception raised inside `finally` replaces
whatever the `try`/`except` was about to return. -/
def crawlerRun (env : BrowserEnv) : Except PyExn RunReturn :=
  let st0 : CrawlerAttrs := ⟨false, false, false⟩
  match setup_browser env st0 with
  | (st1, some _) =>
    match teardown_browser st1 with
    | some e => .error e
    | Option.none => .ok .single_empty_list
  | (st1, Option.none) =>
    match env.body with
    | .error _ =>
      match teardown_browser st1 with
      | some e => .error e
      | Option.none => .ok .single_empty_list
    | .ok (urls, meta) =>
      match teardown_browser st1 with
      | some e => .error e
      | Option.none => .ok (.pair urls meta)

/-! ## parser.py — page model
BeautifulSoup queries are embedded at the granularity `Parser` consumes
them: each `soup.find`/`find_all` the code performs corresponds to one
field of the page model, with `Option` marking absence of the queried
element and element text standing for the `get_text(...)` result. -/

/-- One `<tr>` of the header detail table: the texts of `row.find("th")`
and `row.find("td")`. -/
structure DetailRow where
  th : Option String
  td : Option String

/-- The `div#catalog-detail` block as `parse_catalog` queries it. -/
structure CatalogDetail where
  productDescription : Option String
  detailTable : Option (List DetailRow)
  imgTag : Option (Option String)
  infoPacket : Option (Option String)

/-- One label/value item of a grid column: the `span.label` and
`span.value` children of a direct `div` child of a `div.col`. -/
structure GridItem where
  label : Option String
  value : Option String

/-- A label-value grid: the `div.col` columns, each with its direct `div`
children. -/
abbrev Grid := List (List GridItem)

/-- Kind of a nameplate table cell. -/
inductive CellKind where
  | th
  | td
  deriving Repr, DecidableEq

/-- One cell of a nameplate row with its text. -/
structure NpCell where
  kind : CellKind
  text : String

/-- One nameplate `<tr>`: its `th`/`td` cells in order. -/
abbrev NpRow := List NpCell

/-- One `<tr>` of the load-characteristics data table: `row.find("th")`
and the texts of its `td`s. -/
structure DataRow where
  th : Option String
  tds : List String

/-- The `table.data-table` of the performance tab, with `thead` (its `th`
texts) and `tbody` (its rows) each possibly absent. -/
structure DataTable where
  thead : Option (List String)
  tbody : Option (List DataRow)

/-- The performance pane as `parse_performance` queries it. -/
structure PerfPane where
  h2s : List String
  em : Option String
  h3s : List String
  productOverview : Option Grid
  dataTable : Option DataTable
  sectionDrawings : Option (List String)
  allHrefs : List String

/-- One `<tr>` of a parts/accessories table: its `td` texts. -/
abbrev TdRow := List String

/-- The drawings pane: `div.cadfiles` (absent = no cad div), whose
`ng-init` attribute holds the regex-matched JSON array blocks; each block
is either its parsed list of JSON objects or `Option.none` for a
`json.JSONDecodeError`. -/
structure DrawingsPane where
  cadfiles : Option (List (Option (List (List (String × Val)))))

/-- A fetched product detail page, at the granularity the parser reads. -/
structure Page where
  pageTitle : Option String
  catalogDetail : Option CatalogDetail
  tabs : Option (List String)
  specsPane : Option Grid
  nameplatePane : Option (List NpRow)
  performancePane : Option PerfPane
  partsPane : Option (Option (List TdRow))
  accessoriesPane : Option (Option (List TdRow))
  drawingsPane : Option DrawingsPane

/-! ## parser.py — the extractors -/

/-- Python `' '.join(l)`. -/
def joinSpace : List String → String
  | [] => ""
  | [w] => w
  | w :: ws => w ++ " " ++ joinSpace ws

/-- Model of `parser.normalize_spaces`: `' '.join(text.split())`. -/
def normalize_spaces (text : String) : String :=
  joinSpace (pySplitWs text)

/-- Model of Python `str.lower()` (ASCII, which is all the page uses). -/
def pyLower (s : String) : String :=
  String.mk (s.toList.map Char.toLower)

/-- Model of Python `str.replace(" ", "_")`. -/
def underscore (s : String) : String :=
  String.mk (s.toList.map (fun c => if c = ' ' then '_' else c))

/-- An optional string as the Python value it becomes. -/
def optStr : Option String → Val
  | Option.none => Val.null
  | some s => Val.str s

/-- Python `item.get(k)`: the value or `None`. -/
def vget (kvs : List (String × Val)) (k : String) : Val :=
  (alookup kvs k).getD Val.null

/-- Model of `Parser.parse_catalog`: header extraction. A missing
`div#catalog-detail` returns with nothing set; a present block sets
`product_id` (possibly `None`), `description`
(`normalize_spaces(None)` raises `AttributeError` when the description
element is missing), `info`, `img_src` (possibly `None`), and `pdf_src`
only when the info-packet link exists. -/
def parse_catalog (page : Page) (data : List (String × Val)) :
    Except PyExn (List (String × Val)) :=
  match page.catalogDetail with
  | Option.none => .ok data
  | some cd =>
    match cd.productDescription with
    | Option.none => .error .attributeError
    | some desc =>
      let data := ainsert data "product_id" (optStr page.pageTitle)
      let data := ainsert data "description" (Val.str (normalize_spaces desc))
      let infoPairs := match cd.detailTable with
        | Option.none => []
        | some rows =>
          rows.foldl (fun acc r =>
            match r.th, r.td with
            | some k, some v => ainsert acc (pyLower k) (Val.str v)
            | _, _ => acc) []
      let data := ainsert data "info" (Val.vdict infoPairs)
      let data := ainsert data "img_src"
        (match cd.imgTag with
          | Option.none => Val.null
          | some attr => optStr attr)
      match cd.infoPacket with
      | Option.none => .ok data
      | some href => .ok (ainsert data "pdf_src" (optStr href))

/-- Model of `Parser.parse_label_value_grid`: `None` gives `\x7b\x7d`,
otherwise every complete label/value pair per column in order, keys
lowercased, later duplicates overwriting. -/
def parse_label_value_grid (table : Option Grid) : List (String × Val) :=
  match table with
  | Option.none => []
  | some cols =>
    cols.foldl (fun data col =>
      col.foldl (fun data item =>
        match item.label, item.value with
        | some l, some v => ainsert data (pyLower l) (Val.str v)
        | _, _ => data) data) []

/-- Model of `Parser.parse_specs`. -/
def parse_specs (page : Page) : Val :=
  match page.specsPane with
  | Option.none => Val.vdict []
  | some grid => Val.vdict (parse_label_value_grid (some grid))

/-- Cell loop of `parse_nameplate` for one multi-cell row, carrying the
pending `key`. -/
def npProcessCells : List NpCell → Option String → List (String × Val) →
    List String → List (String × Val) × List String
  | [], _, np, ex => (np, ex)
  | c :: cs, key, np, ex =>
    match c.kind with
    | .th => npProcessCells cs (some c.text) np ex
    | .td =>
      match key with
      | some k => npProcessCells cs Option.none (ainsert np (pyLower k) (Val.str c.text)) ex
      | Option.none =>
        if c.text ≠ "" then npProcessCells cs Option.none np (ex ++ [c.text])
        else npProcessCells cs Option.none np ex

/-- Row loop of `parse_nameplate`: a single-cell row goes to the extras
unconditionally; other rows run the cell loop with a fresh key. -/
def npProcessRows : List NpRow → List (String × Val) → List String →
    List (String × Val) × List String
  | [], np, ex => (np, ex)
  | [c] :: rows, np, ex => npProcessRows rows np (ex ++ [c.text])
  | row :: rows, np, ex =>
    let r := npProcessCells row Option.none np ex
    npProcessRows rows r.1 r.2

/-- Model of `Parser.parse_nameplate`. -/
def parse_nameplate (page : Page) : Val :=
  match page.nameplatePane with
  | Option.none => Val.vdict []
  | some rows =>
    let r := npProcessRows rows [] []
    if r.2.isEmpty then Val.vdict r.1
    else Val.vdict (ainsert r.1 "EXTRAS" (Val.vlist (r.2.map Val.str)))

/-- Model of `Parser.parse_general_characteristics`. -/
def parse_general_characteristics (pp : PerfPane) : Val :=
  Val.vdict (parse_label_value_grid pp.productOverview)

/-- Python `dict(zip(headers, values))`. -/
def zipDict (ks vs : List String) : List (String × Val) :=
  (List.zip ks vs).foldl (fun d p => ainsert d p.1 (Val.str p.2)) []

/-- Row loop of `parse_load_characteristics`: a row without a `th` makes
`label_cell.get_text` raise `AttributeError`. -/
def loadRows : List DataRow → List String → List (String × Val) →
    Except PyExn (List (String × Val))
  | [], _, data => .ok data
  | row :: rows, headers, data =>
    match row.th with
    | Option.none => .error .attributeError
    | some label =>
      loadRows rows headers (ainsert data label (Val.vdict (zipDict headers row.tds)))

/-- Model of `Parser.parse_load_characteristics` — unguarded: a missing
`table.data-table` (`table` is `None`, then `table.find("thead")`), a
missing `thead` or `tbody`, an empty header list (`headers[0]`), or a
row without a `th` all raise. -/
def parse_load_characteristics (pp : PerfPane) : Except PyExn Val :=
  match pp.dataTable with
  | Option.none => .error .attributeError
  | some t =>
    match t.thead with
    | Option.none => .error .attributeError
    | some ths =>
      match ths with
      | [] => .error .indexError
      | headerTag :: headers =>
        match t.tbody with
        | Option.none => .error .attributeError
        | some rows =>
          match loadRows rows headers [("metric", Val.str headerTag)] with
          | .error e => .error e
          | .ok data => .ok (Val.vdict data)

/-- Model of `Parser.parse_performance_curves` — unguarded: a missing
`div.section.drawings` raises `AttributeError`. -/
def parse_performance_curves (pp : PerfPane) : Except PyExn Val :=
  match pp.sectionDrawings with
  | Option.none => .error .attributeError
  | some hrefs => .ok (Val.vlist (hrefs.map Val.str))

/-- Subsection dispatch loop of `parse_performance` over the lowercased
`h3` titles; unknown titles are logged and skipped, and the three known
subsection parsers run unwrapped — their exceptions propagate. -/
def perfDispatch (pp : PerfPane) : List String → List (String × Val) →
    Except PyExn (List (String × Val))
  | [], perf => .ok perf
  | s :: ss, perf =>
    if s = "general characteristics" then
      perfDispatch pp ss (ainsert perf "general_characteristics"
        (parse_general_characteristics pp))
    else if s = "load characteristics" then
      match parse_load_characteristics pp with
      | .error e => .error e
      | .ok v => perfDispatch pp ss (ainsert perf "load_characteristics" v)
    else if s = "performance curves" then
      match parse_performance_curves pp with
      | .error e => .error e
      | .ok v => perfDispatch pp ss (ainsert perf "performance_curves" v)
    else perfDispatch pp ss perf

/-- Model of `Parser.parse_performance`: optional description (first
non-heading `h2`; its `[...][0]` `IndexError` is caught by the bare
`except`), optional observation (`find("em")`; its `AttributeError`
likewise caught), then the `h3` subsection dispatch, then the
`associated_urls` fallback when no `h3` titles exist. -/
def parse_performance (page : Page) : Except PyExn Val :=
  match page.performancePane with
  | Option.none => .ok (Val.vdict [])
  | some pp =>
    let perf : List (String × Val) :=
      match pp.h2s with
      | [] => []
      | d :: _ => [("description", Val.str d)]
    let perf :=
      match pp.em with
      | Option.none => perf
      | some o => ainsert perf "observation" (Val.str o)
    let h3_tags := pp.h3s.map pyLower
    match perfDispatch pp h3_tags perf with
    | .error e => .error e
    | .ok perf =>
      if h3_tags.isEmpty then
        .ok (Val.vdict (ainsert perf "associated_urls"
          (Val.vlist (pp.allHrefs.map Val.str))))
      else .ok (Val.vdict perf)

/-- Row loop of `parse_parts`/`parse_accessories`: rows without exactly
three `td`s are logged as malformed and skipped. -/
def parseTdRows (rows : List TdRow) (qtyKey : String) : List Val :=
  rows.foldl (fun parts cols =>
    match cols with
    | [p, d, q] =>
      parts ++ [Val.vdict [("part_number", Val.str (normalize_spaces p)),
        ("description", Val.str (normalize_spaces d)),
        (qtyKey, Val.str (normalize_spaces q))]]
    | _ => parts) []

/-- Model of `Parser.parse_parts`: missing pane or missing `tbody` give
the empty list. -/
def parse_parts (page : Page) : Val :=
  match page.partsPane with
  | Option.none => Val.vlist []
  | some Option.none => Val.vlist []
  | some (some rows) => Val.vlist (parseTdRows rows "quantity")

/-- Model of `Parser.parse_accessories` (same shape, `list price` key). -/
def parse_accessories (page : Page) : Val :=
  match page.accessoriesPane with
  | Option.none => Val.vlist []
  | some Option.none => Val.vlist []
  | some (some rows) => Val.vlist (parseTdRows rows "list price")

/-- The CAD record `parse_drawings` builds from one JSON item. -/
def cadRecord (item : List (String × Val)) : Val :=
  Val.vdict [("name", vget item "name"), ("filetype", vget item "filetype"),
    ("value", vget item "value"), ("url", vget item "url"),
    ("cad", vget item "cad"), ("version", vget item "version")]

/-- The image record `parse_drawings` builds from one JSON item. -/
def imgRecord (item : List (String × Val)) : Val :=
  Val.vdict [("description", vget item "description"), ("kind", vget item "kind"),
    ("material", vget item "material"), ("number", vget item "number"),
    ("revision", vget item "revision"),
    ("revisionLetter", vget item "revisionLetter"),
    ("type", vget item "type"), ("url", vget item "url")]

/-- Block loop of `parse_drawings`: a decode failure anywhere makes the
whole extractor return early (`Option.none` here); otherwise items with a
truthy `url` extend the CAD list and items with a truthy `number` extend
the image list (an item can do both). -/
def drawingsBlocks : List (Option (List (List (String × Val)))) →
    List Val → List Val → Option (List Val × List Val)
  | [], cads, imgs => some (cads, imgs)
  | Option.none :: _, _, _ => Option.none
  | some items :: rest, cads, imgs =>
    let step := items.foldl (fun (p : List Val × List Val) item =>
      let p1 := if vtruthy (vget item "url") then (p.1 ++ [cadRecord item], p.2) else p
      if vtruthy (vget item "number") then (p1.1, p1.2 ++ [imgRecord item]) else p1)
      (cads, imgs)
    drawingsBlocks rest step.1 step.2

/-- Model of `Parser.parse_drawings`: missing pane, missing `div.cadfiles`
or no JSON blocks give `\x7b\x7d`; a JSON decode failure on any block gives the
literal `return []` — an empty list, not a dict; otherwise the
`\x7b"imgs": ..., "cads": ...\x7d` payload. -/
def parse_drawings (page : Page) : Val :=
  match page.drawingsPane with
  | Option.none => Val.vdict []
  | some dp =>
    match dp.cadfiles with
    | Option.none => Val.vdict []
    | some blocks =>
      if blocks.isEmpty then Val.vdict []
      else
        match drawingsBlocks blocks [] [] with
        | Option.none => Val.vlist []
        | some (cads, imgs) =>
          Val.vdict [("imgs", Val.vlist imgs), ("cads", Val.vlist cads)]

/-- Model of `Parser.find_sessions`: no `div.c-tab` gives `[]`, else the
lowercased `li` texts. -/
def find_sessions (page : Page) : List String :=
  match page.tabs with
  | Option.none => []
  | some names => names.map pyLower

/-- Outcome of the page fetch in `Parser.run`: an exception from
`session.get` itself, or a response with its status code and page. -/
inductive FetchPage where
  | exn
  | resp (status : Nat) (page : Page)

/-- Tab dispatch loop of `Parser.run`: a registered extractor's result is
stored under the tab name; `parse_performance` runs unwrapped, so its
exceptions propagate; unregistered tabs are logged and skipped. -/
def sessionDispatch (page : Page) : List String → List (String × Val) →
    Except PyExn (List (String × Val))
  | [], data => .ok data
  | name :: rest, data =>
    if name = "specs" then
      sessionDispatch page rest (ainsert data "specs" (parse_specs page))
    else if name = "nameplate" then
      sessionDispatch page rest (ainsert data "nameplate" (parse_nameplate page))
    else if name = "performance" then
      match parse_performance page with
      | .error e => .error e
      | .ok v => sessionDispatch page rest (ainsert data "performance" v)
    else if name = "parts" then
      sessionDispatch page rest (ainsert data "parts" (parse_parts page))
    else if name = "accessories" then
      sessionDispatch page rest (ainsert data "accessories" (parse_accessories page))
    else if name = "drawings" then
      sessionDispatch page rest (ainsert data "drawings" (parse_drawings page))
    else sessionDispatch page rest data

/-- Model of `Parser.run`: an exception from `session.get` is caught and
returns `\x7b\x7d`; then `response.raise_for_status()` — outside any
`try` — raises `HTTPError` for any 4xx/5xx status; then `parse_catalog`
and the tab dispatch run unwrapped. -/
def parserRun (fetch : FetchPage) : Except PyExn Val :=
  match fetch with
  | .exn => .ok (Val.vdict [])
  | .resp status page =>
    if 400 ≤ status then .error .httpError
    else
      match parse_catalog page [] with
      | .error e => .error e
      | .ok data =>
        match sessionDispatch page (find_sessions page) data with
        | .error e => .error e
        | .ok data => .ok (Val.vdict data)

/-- A page with nothing on it. -/
def emptyPage : Page :=
  ⟨Option.none, Option.none, Option.none, Option.none, Option.none, Option.none,
    Option.none, Option.none, Option.none⟩

/-- A page whose `div#catalog-detail` exists but has no
`div.product-description`. -/
def pageNoDesc : Page :=
  { pageTitle := some "ABC123",
    catalogDetail := some ⟨Option.none, Option.none, Option.none, Option.none⟩,
    tabs := some ["Specs"],
    specsPane := some [[⟨some "HP", some "10"⟩]],
    nameplatePane := Option.none,
    performancePane := Option.none,
    partsPane := Option.none,
    accessoriesPane := Option.none,
    drawingsPane := Option.none }

/-- A page whose performance tab advertises a `Load Characteristics`
heading but has no `table.data-table`, with healthy specs and parts tabs
beside it. -/
def pagePerfBroken : Page :=
  { pageTitle := some "M1",
    catalogDetail := some ⟨some "A motor", Option.none, Option.none, Option.none⟩,
    tabs := some ["Specs", "Performance", "Parts"],
    specsPane := some [[⟨some "HP", some "10"⟩]],
    nameplatePane := Option.none,
    performancePane := some
      ⟨[], Option.none, ["Load Characteristics"], Option.none, Option.none,
        Option.none, []⟩,
    partsPane := some (some [["P1", "bolt", "1.000 EA"]]),
    accessoriesPane := Option.none,
    drawingsPane := Option.none }

/-- A page whose drawings tab has one JSON block that fails to decode,
with healthy specs and parts tabs beside it. -/
def pageDrawBad : Page :=
  { pageTitle := some "M1",
    catalogDetail := some ⟨some "A motor", Option.none, Option.none, Option.none⟩,
    tabs := some ["Specs", "Parts", "Drawings"],
    specsPane := some [[⟨some "HP", some "10"⟩]],
    nameplatePane := Option.none,
    performancePane := Option.none,
    partsPane := some (some [["P1", "bolt", "1.000 EA"]]),
    accessoriesPane := Option.none,
    drawingsPane := some ⟨some [Option.none]⟩ }

/-! ## downloader.py
`download_file` returns `None`, its failures only log, and no caller
reads any download result — so the retrieval model tracks the data flow:
the manifest that `Downloader.run` builds and the state of the input
record after the call. -/

/-- Model of `Downloader.sanitize_filename`: characters invalid in file
paths become underscores. -/
def sanitize_filename (filename : String) : String :=
  String.mk (filename.toList.map (fun c =>
    if c = '<' ∨ c = '>' ∨ c = ':' ∨ c = '"' ∨ c = '/' ∨ c = '\\' ∨ c = '|'
        ∨ c = '?' ∨ c = '*'
    then '_' else c))

/-- Model of `downloader.unwrap` on a path list: a single element
collapses to a bare value. -/
def unwrap : List String → Val
  | [x] => Val.str x
  | l => Val.vlist (l.map Val.str)

/-- Character splitter for Python `s.split(sep)` with a one-character
separator: empty pieces are kept and the result is never empty. -/
def splitOnCharAux (sep : Char) : List Char → List Char → List String
  | [], acc => [String.mk acc.reverse]
  | c :: cs, acc =>
    if c = sep then String.mk acc.reverse :: splitOnCharAux sep cs []
    else splitOnCharAux sep cs (c :: acc)

/-- Python `s.split(sep)` for a one-character separator. -/
def splitOnChar (sep : Char) (s : String) : List String :=
  splitOnCharAux sep s.toList []

/-- Model of `Downloader.download_main_image`: a truthy `img_src` yields
the `img.jpg` manifest entry — whether or not the download succeeds, the
entry is produced, since `download_file`'s result is never read. -/
def download_main_image (json : List (String × Val)) (rel : String) : List String :=
  if vtruthy (vget json "img_src") then [rel ++ "/img.jpg"] else []

/-- Model of `Downloader.download_product_manual`. -/
def download_product_manual (json : List (String × Val)) (rel : String) : List String :=
  if vtruthy (vget json "pdf_src") then [rel ++ "/manual.pdf"] else []

/-- Model of `Downloader.download_performance`: returns the manifest
paths and the record as it stands afterwards —
`associated_urls.extend(performance_curves_src)` mutates the record's
own `associated_urls` list in place whenever the key is present.
(A truthy non-dict `performance`, or non-list values under either key,
raise; Python's char-iteration of a string operand is out of scope.) -/
def download_performance (json : List (String × Val)) (rel : String) :
    Except PyExn (List String × List (String × Val)) :=
  let perfv := vget json "performance"
  if vtruthy perfv = false then .ok ([], json)
  else
    match perfv with
    | Val.vdict pkvs =>
      let curvesv := (alookup pkvs "performance_curves").getD (Val.vlist [])
      let assocPresent := (alookup pkvs "associated_urls").isSome
      let assocv := (alookup pkvs "associated_urls").getD (Val.vlist [])
      match assocv with
      | Val.vlist assoc =>
        match curvesv with
        | Val.vlist curves =>
          let extended := assoc ++ curves
          let json' := if assocPresent then
              ainsert json "performance"
                (Val.vdict (ainsert pkvs "associated_urls" (Val.vlist extended)))
            else json
          if extended.isEmpty then .ok ([], json')
          else .ok ((List.range extended.length).map (fun i =>
              rel ++ "/performance_curve_" ++ toString i ++ ".pdf"), json')
        | _ => .error .typeError
      | _ => .error .attributeError
    | _ => .error .attributeError

/-- Render-path loop of `download_drawings`: `img_dict["number"]` raises
`KeyError` when absent, a non-dict raises `TypeError`. -/
def renderPaths : List Val → Nat → String → Except PyExn (List String)
  | [], _, _ => .ok []
  | Val.vdict ikvs :: rest, i, rel =>
    match alookup ikvs "number" with
    | Option.none => .error .keyError
    | some _ =>
      (renderPaths rest (i + 1) rel).map
        (fun ps => (rel ++ "/render_" ++ toString i ++ ".pdf") :: ps)
  | _ :: _, _, _ => .error .typeError

/-- CAD-path loop of `download_drawings`: `cad_dict["value"]`,
`cad_dict["url"]` and `cad_dict["name"]` raise `KeyError` when absent;
`value.split(".")` and `name.split(" ")` raise on non-strings; the
destination name is the sanitized underscored name dotted with the
value's trailing suffix. -/
def cadPaths : List Val → String → Except PyExn (List String)
  | [], _ => .ok []
  | Val.vdict ckvs :: rest, rel =>
    match alookup ckvs "value" with
    | Option.none => .error .keyError
    | some vv =>
      match alookup ckvs "url" with
      | Option.none => .error .keyError
      | some _ =>
        match vv with
        | Val.str v =>
          match alookup ckvs "name" with
          | Option.none => .error .keyError
          | some (Val.str nm) =>
            let ft := ((splitOnChar '.' v).getLast?).getD ""
            let fname := sanitize_filename (underscore nm ++ "." ++ ft)
            (cadPaths rest rel).map (fun ps => (rel ++ "/" ++ fname) :: ps)
          | some _ => .error .attributeError
        | _ => .error .attributeError
  | _ :: _, _ => .error .typeError

/-- Model of `Downloader.download_drawings`: `json.get("drawings")` is
only warned about when falsy but is then used unconditionally —
`drawings_dict.get("imgs", [])` raises `AttributeError` on `None` (the
missing-section case) and on a list (the parser's decode-failure `[]`);
a well-formed dict yields the renders/cads path dict, single entries
unwrapped. -/
def download_drawings (json : List (String × Val)) (rel : String) :
    Except PyExn (List (String × Val)) :=
  match vget json "drawings" with
  | Val.vdict dkvs =>
    let imgsv := (alookup dkvs "imgs").getD (Val.vlist [])
    let cadsv := (alookup dkvs "cads").getD (Val.vlist [])
    match imgsv with
    | Val.vlist imgs =>
      match cadsv with
      | Val.vlist cads =>
        match renderPaths imgs 0 rel with
        | .error e => .error e
        | .ok rps =>
          match cadPaths cads rel with
          | .error e => .error e
          | .ok cps => .ok [("renders", unwrap rps), ("cads", unwrap cps)]
      | _ => .error .typeError
    | _ => .error .typeError
  | _ => .error .attributeError

/-- Model of `Downloader.run`: reads `product_id` (a `KeyError` when
absent, `TypeError` under `re.sub` when not a string), builds the
sanitized relative root, then assembles the manifest from the four
download steps; the returned pair also carries the record as
`download_performance` left it. -/
def downloaderRun (json : List (String × Val)) :
    Except PyExn (List (String × Val) × List (String × Val)) :=
  match alookup json "product_id" with
  | Option.none => .error .keyError
  | some (Val.str pid) =>
    let rel := "assets/" ++ sanitize_filename pid
    let img := unwrap (download_main_image json rel)
    let man := unwrap (download_product_manual json rel)
    match download_performance json rel with
    | .error e => .error e
    | .ok (perfPaths, json') =>
      match download_drawings json' rel with
      | .error e => .error e
      | .ok drawPairs =>
        .ok ([("image", img), ("manual", man), ("performance", unwrap perfPaths)]
          ++ drawPairs, json')
  | some _ => .error .typeError

/-- A record with a performance section holding both URL lists (and an
empty drawings dict so that retrieval completes). -/
def mkPerfRecord (pid : String) (urls curves : List String) : List (String × Val) :=
  [("product_id", Val.str pid),
    ("performance", Val.vdict
      [("associated_urls", Val.vlist (urls.map Val.str)),
        ("performance_curves", Val.vlist (curves.map Val.str))]),
    ("drawings", Val.vdict [])]

/-- Probe used to separate a mutated record from the original: the length
of `performance.associated_urls`. -/
def assocUrlsLen (json : List (String × Val)) : Nat :=
  match vget json "performance" with
  | Val.vdict pkvs =>
    match vget pkvs "associated_urls" with
    | Val.vlist l => l.length
    | _ => 0
  | _ => 0

/-! ## Theorems -/

theorem removePairs_eq (kvs : List (String × Val)) :
    removePairs kvs =
      (kvs.map (fun p => (p.1, remove_empty_fields p.2))).filter
        (fun p => !isEmptyVal p.2) := by
  induction kvs with
  | nil => rfl
  | cons p rest ih =>
    obtain ⟨k, v⟩ := p
    simp only [removePairs, List.map_cons, List.filter_cons]
    by_cases h : isEmptyVal (remove_empty_fields v)
    · simp [h, ih]
    · simp [h, ih]

theorem removeElems_eq (xs : List Val) :
    removeElems xs = (xs.map remove_empty_fields).filter (fun v => !isEmptyVal v) := by
  induction xs with
  | nil => rfl
  | cons v rest ih =>
    simp only [removeElems, List.map_cons, List.filter_cons]
    by_cases h : isEmptyVal (remove_empty_fields v)
    · simp [h, ih]
    · simp [h, ih]

/-- C8: empty-field stripping is recursive and exhaustive — a dict entry
or list element survives exactly when its recursively cleaned value is
not `None`, `""`, `[]` or `\x7b\x7d` (and then appears cleaned, in order);
primitives are returned unchanged; and the spec's example
`\x7b"a": "", "b": \x7b"c": []\x7d, "d": "keep"\x7d` cleans to
`\x7b"d": "keep"\x7d`. -/
theorem remove_empty_fields_spec :
    (∀ kvs, remove_empty_fields (Val.vdict kvs) =
      Val.vdict ((kvs.map (fun p => (p.1, remove_empty_fields p.2))).filter
        (fun p => !isEmptyVal p.2)))
    ∧ (∀ xs, remove_empty_fields (Val.vlist xs) =
      Val.vlist ((xs.map remove_empty_fields).filter (fun v => !isEmptyVal v)))
    ∧ (∀ s, remove_empty_fields (Val.str s) = Val.str s)
    ∧ (∀ q, remove_empty_fields (Val.num q) = Val.num q)
    ∧ (∀ b, remove_empty_fields (Val.bool b) = Val.bool b)
    ∧ remove_empty_fields Val.null = Val.null
    ∧ remove_empty_fields
        (Val.vdict [("a", Val.str ""), ("b", Val.vdict [("c", Val.vlist [])]),
          ("d", Val.str "keep")])
      = Val.vdict [("d", Val.str "keep")] := by
  refine ⟨?_, ?_, ?_, ?_, ?_, rfl, rfl⟩
  · intro kvs
    simp [remove_empty_fields, removePairs_eq]
  · intro xs
    simp [remove_empty_fields, removeElems_eq]
  · intro s; rfl
  · intro q; rfl
  · intro b; rfl

theorem bomKeys_concat (p : List BomItem) (it : BomItem) :
    bomKeys (p ++ [it]) =
      if it.part_number ∈ bomKeys p then bomKeys p
      else bomKeys p ++ [it.part_number] := by
  simp [bomKeys, List.foldl_append]

theorem bomGroupOf_concat (p : List BomItem) (it : BomItem) (k : Option String) :
    bomGroupOf (p ++ [it]) k =
      bomGroupOf p k ++ if it.part_number = k then [it] else [] := by
  by_cases h : it.part_number = k <;> simp [bomGroupOf, List.filter_append, h]

theorem mem_bomKeys_aux (p : List BomItem) (k : Option String)
    (ks : List (Option String)) :
    (k ∈ p.foldl
        (fun ks it => if it.part_number ∈ ks then ks else ks ++ [it.part_number]) ks)
      ↔ k ∈ ks ∨ k ∈ p.map (fun it => it.part_number) := by
  induction p generalizing ks with
  | nil => simp
  | cons it p ih =>
    simp only [List.foldl_cons, List.map_cons, List.mem_cons]
    by_cases h : it.part_number ∈ ks
    · rw [if_pos h, ih]
      constructor
      · tauto
      · rintro (hk | rfl | hm)
        · tauto
        · exact Or.inl h
        · tauto
    · rw [if_neg h, ih]
      simp [List.mem_append, or_assoc]

theorem mem_bomKeys (p : List BomItem) (k : Option String) :
    k ∈ bomKeys p ↔ k ∈ p.map (fun it => it.part_number) := by
  simpa using mem_bomKeys_aux p k []

theorem bomKeys_nodup_aux (p : List BomItem) (ks : List (Option String))
    (h : ks.Nodup) :
    (p.foldl
        (fun ks it => if it.part_number ∈ ks then ks else ks ++ [it.part_number])
        ks).Nodup := by
  induction p generalizing ks with
  | nil => simpa
  | cons it p ih =>
    simp only [List.foldl_cons]
    by_cases hm : it.part_number ∈ ks
    · rw [if_pos hm]; exact ih ks h
    · rw [if_neg hm]
      exact ih _ (by simp [List.nodup_append, h, hm])

theorem bomKeys_nodup (p : List BomItem) : (bomKeys p).Nodup :=
  bomKeys_nodup_aux p [] (by simp)

theorem bomGroupOf_nil_of_not_mem (p : List BomItem) (k : Option String)
    (h : k ∉ p.map (fun it => it.part_number)) :
    bomGroupOf p k = [] := by
  rw [bomGroupOf, List.filter_eq_nil_iff]
  intro it hit
  simp only [decide_eq_true_eq]
  intro heq
  exact h (heq ▸ List.mem_map_of_mem (fun it => it.part_number) hit)

theorem bomUpd_mem (keys : List (Option String)) (g : Option String → String × ℚ)
    (k : Option String) (d : String) (q : ℚ)
    (hnd : keys.Nodup) (hk : k ∈ keys) :
    bomUpd (keys.map (fun k2 => (k2, g k2))) k d q =
      keys.map (fun k2 => (k2, if k2 = k then (d, (g k).2 + q) else g k2)) := by
  induction keys with
  | nil => simp at hk
  | cons a tl ih =>
    simp only [List.map_cons, bomUpd]
    by_cases ha : a = k
    · subst ha
      rw [if_pos rfl]
      have hnotin : a ∉ tl := (List.nodup_cons.mp hnd).1
      simp only [if_pos rfl]
      congr 1
      apply List.map_congr_left
      intro k2 hk2
      have : k2 ≠ a := fun h => hnotin (h ▸ hk2)
      simp [this]
    · rw [if_neg ha, if_neg ha]
      have hk' : k ∈ tl := by
        rcases List.mem_cons.mp hk with h | h
        · exact absurd h.symm ha
        · exact h
      rw [ih (List.nodup_cons.mp hnd).2 hk']

theorem bomUpd_not_mem (keys : List (Option String))
    (g : Option String → String × ℚ) (k : Option String) (d : String) (q : ℚ)
    (hk : k ∉ keys) :
    bomUpd (keys.map (fun k2 => (k2, g k2))) k d q =
      keys.map (fun k2 => (k2, g k2)) ++ [(k, d, q)] := by
  induction keys with
  | nil => rfl
  | cons a tl ih =>
    have ha : a ≠ k := by rintro rfl; exact hk (by simp)
    simp only [List.map_cons, bomUpd, if_neg ha, List.cons_append]
    rw [ih (fun h => hk (List.mem_cons_of_mem _ h))]

theorem bom_grouped_eq (bom : List BomItem) :
    bom.foldl
        (fun acc it => bomUpd acc it.part_number (it.description.getD "") (qtyOf it))
        []
      = (bomKeys bom).map (fun k => (k, bomG bom k)) := by
  induction bom using List.reverseRecOn with
  | nil => rfl
  | append_singleton p it ih =>
    rw [List.foldl_append, List.foldl_cons, List.foldl_nil, ih]
    by_cases hm : it.part_number ∈ bomKeys p
    · rw [bomUpd_mem _ _ _ _ _ (bomKeys_nodup p) hm, bomKeys_concat, if_pos hm]
      apply List.map_congr_left
      intro k hk
      by_cases hke : k = it.part_number
      · subst hke
        simp only [if_pos rfl]
        unfold bomG
        rw [bomGroupOf_concat, if_pos rfl]
        simp
      · have : it.part_number ≠ k := fun h => hke h.symm
        simp only [if_neg hke]
        unfold bomG
        rw [bomGroupOf_concat, if_neg this]
        simp
    · rw [bomUpd_not_mem _ _ _ _ _ hm, bomKeys_concat, if_neg hm, List.map_append]
      congr 1
      · apply List.map_congr_left
        intro k hk
        have hne : it.part_number ≠ k := fun h => hm (h ▸ hk)
        unfold bomG
        rw [bomGroupOf_concat, if_neg hne]
        simp
      · have hgrp : bomGroupOf p it.part_number = [] :=
          bomGroupOf_nil_of_not_mem p it.part_number
            (fun h => hm ((mem_bomKeys p it.part_number).mpr h))
        simp [bomG, bomGroupOf_concat, hgrp]

/-- C5: BOM deduplication groups by `part_number`, sums the quantity
magnitudes parsed from the leading decimal token (unparsable treated as
zero), keeps the last-seen description per group, re-emits each quantity
as a three-decimal fixed-point magnitude followed by `" EA"`, and
preserves first-occurrence order; in particular the spec's example input
yields exactly the claimed two-line output. -/
theorem deduplicate_bom_spec :
    (∀ bom, deduplicate_bom bom = bomDedupSpec bom)
    ∧ deduplicate_bom
        [⟨some "A", some "x", some "1.000 EA"⟩, ⟨some "A", some "x", some "2.500 EA"⟩,
          ⟨some "B", some "y", some "1.000 EA"⟩]
      = [⟨some "A", "x", "3.500 EA"⟩, ⟨some "B", "y", "1.000 EA"⟩] := by
  constructor
  · intro bom
    unfold deduplicate_bom bomDedupSpec
    rw [bom_grouped_eq, List.map_map]
    apply List.map_congr_left
    intro k hk
    rfl
  · have hq1 : qtyOf ⟨some "A", some "x", some "1.000 EA"⟩ = 1 := by
      have hs : pySplitWs "1.000 EA" = ["1.000", "EA"] := by decide
      have hp : parseDecParts? "1.000" = some (false, 1, 0, 3) := by decide
      norm_num [qtyOf, hs, parseDecimal?, hp, partsToRat]
    have hq2 : qtyOf ⟨some "A", some "x", some "2.500 EA"⟩ = 5 / 2 := by
      have hs : pySplitWs "2.500 EA" = ["2.500", "EA"] := by decide
      have hp : parseDecParts? "2.500" = some (false, 2, 500, 3) := by decide
      norm_num [qtyOf, hs, parseDecimal?, hp, partsToRat]
    have hq3 : qtyOf ⟨some "B", some "y", some "1.000 EA"⟩ = 1 := by
      have hs : pySplitWs "1.000 EA" = ["1.000", "EA"] := by decide
      have hp : parseDecParts? "1.000" = some (false, 1, 0, 3) := by decide
      norm_num [qtyOf, hs, parseDecimal?, hp, partsToRat]
    have hf1 : fmt3 (1 + 5 / 2) = "3.500" := by
      have hfl : Int.floor ((1 + 5 / 2 : ℚ) * 1000 + 1 / 2) = 3500 := by norm_num
      simp only [fmt3, hfl]
      decide
    have hf2 : fmt3 1 = "1.000" := by
      have hfl : Int.floor ((1 : ℚ) * 1000 + 1 / 2) = 1000 := by norm_num
      simp only [fmt3, hfl]
      decide
    simp [deduplicate_bom, bomUpd, hq1, hq2, hq3, hf1, hf2]

theorem codesOfT_ok (l : List Val) (h : ∀ v ∈ l, isObjWithCode v = true) :
    codesOfT l = .ok (l.map codeOf) := by
  induction l with
  | nil => rfl
  | cons v rest ih =>
    have hv := h v (List.mem_cons_self v rest)
    have hrest := ih (fun w hw => h w (List.mem_cons_of_mem v hw))
    match v, hv with
    | .vdict kvs, hv =>
      simp only [isObjWithCode] at hv
      cases hl : alookup kvs "code" with
      | none => rw [hl] at hv; simp at hv
      | some c =>
        simp [codesOfT, hl, hrest, codeOf, Except.map]

theorem fetchLoop_char (net : Nat → ApiOutcome) (k : Nat) :
    ∀ (start fuel : Nat) (acc : FetchAcc),
      (∀ j, j < k → (matchesOf (get_products net (start + j))).isEmpty = false) →
      (∀ j, j < k → ∀ v ∈ matchesOf (get_products net (start + j)),
        isObjWithCode v = true) →
      (matchesOf (get_products net (start + k))).isEmpty = true →
      k + 1 ≤ fuel →
      fetchLoop net fuel start acc = .ok
        ({ all_codes := acc.all_codes ++
            (List.range k).flatMap
              (fun j => (matchesOf (get_products net (start + j))).map codeOf),
           all_products := acc.all_products ++
            (List.range k).flatMap (fun j => matchesOf (get_products net (start + j))),
           requested := acc.requested ++ List.range' start (k + 1) }, true) := by
  induction k with
  | zero =>
    intro start fuel acc h1 hc h2 hfuel
    obtain ⟨f, rfl⟩ : ∃ f, fuel = f + 1 := ⟨fuel - 1, by omega⟩
    rw [Nat.add_zero] at h2
    simp [fetchLoop, h2, List.range']
  | succ k ih =>
    intro start fuel acc h1 hc h2 hfuel
    obtain ⟨f, rfl⟩ : ∃ f, fuel = f + 1 := ⟨fuel - 1, by omega⟩
    have h10 := h1 0 (Nat.succ_pos k)
    have hc0 := hc 0 (Nat.succ_pos k)
    rw [Nat.add_zero] at h10 hc0
    have hcodes := codesOfT_ok _ hc0
    simp only [fetchLoop, h10, Bool.false_eq_true, if_false, hcodes]
    have ihh := ih (start + 1) f
      { all_codes := acc.all_codes ++ (matchesOf (get_products net start)).map codeOf,
        all_products := acc.all_products ++ matchesOf (get_products net start),
        requested := acc.requested ++ [start] }
      (fun j hj => by
        have := h1 (j + 1) (Nat.succ_lt_succ hj)
        simpa [Nat.add_assoc, Nat.add_comm 1 j] using this)
      (fun j hj => by
        have := hc (j + 1) (Nat.succ_lt_succ hj)
        simpa [Nat.add_assoc, Nat.add_comm 1 j] using this)
      (by
        have : start + (k + 1) = start + 1 + k := by omega
        rw [this] at h2; exact h2)
      (by omega)
    rw [ihh]
    have hshift : ∀ (g : Nat → List Val),
        (List.range (k + 1)).flatMap (fun j => g (start + j)) =
          g start ++ (List.range k).flatMap (fun j => g (start + 1 + j)) := by
      intro g
      rw [List.range_succ_eq_map, List.flatMap_cons, List.flatMap_map]
      simp only [Function.comp, Nat.add_zero]
      refine congrArg (List.append (g start)) ?_
      refine congrArg (List.flatMap (List.range k)) ?_
      funext j
      congr 1
      omega
    simp only [Except.ok.injEq, Prod.mk.injEq, FetchAcc.mk.injEq, and_true]
    refine ⟨?_, ?_, ?_⟩
    · rw [hshift (fun n => (matchesOf (get_products net n)).map codeOf), List.append_assoc]
    · rw [hshift (fun n => matchesOf (get_products net n)), List.append_assoc]
    · rw [List.append_assoc]
      rfl

/-- C3: for a category whose pages `0..k-1` return nonempty matches (of
well-formed match objects) and whose page `k` returns empty or absent
matches, the loop requests exactly pages `0..k` — nothing after the empty
page — and the accumulated stubs are exactly the matches of the earlier
pages in API order. -/
theorem pagination_stops_at_first_empty_page
    (net : Nat → ApiOutcome) (k fuel : Nat)
    (h1 : ∀ j, j < k → (matchesOf (get_products net j)).isEmpty = false)
    (hc : ∀ j, j < k → ∀ v ∈ matchesOf (get_products net j), isObjWithCode v = true)
    (h2 : (matchesOf (get_products net k)).isEmpty = true)
    (hfuel : k + 1 ≤ fuel) :
    fetch_category_products_and_codes net fuel = .ok
      ({ all_codes := (List.range k).flatMap
            (fun j => (matchesOf (get_products net j)).map codeOf),
         all_products := (List.range k).flatMap
            (fun j => matchesOf (get_products net j)),
         requested := List.range (k + 1) }, true) := by
  have h := fetchLoop_char net k 0 fuel ⟨[], [], []⟩
    (fun j hj => by simpa using h1 j hj)
    (fun j hj => by simpa using hc j hj)
    (by simpa using h2) hfuel
  simpa [fetch_category_products_and_codes, List.range_eq_range'] using h

/-- Witness for C3 at the spec's 10/10/0 example: exactly 20 stubs
accumulate and exactly pages 0, 1, 2 are requested. -/
theorem pagination_stops_at_first_empty_page_witness :
    (fetch_category_products_and_codes exNet 3 = .ok
      ({ all_codes := (List.range 2).flatMap
            (fun j => (matchesOf (get_products exNet j)).map codeOf),
         all_products := (List.range 2).flatMap
            (fun j => matchesOf (get_products exNet j)),
         requested := List.range 3 }, true))
    ∧ ((List.range 2).flatMap (fun j => matchesOf (get_products exNet j))).length = 20
    ∧ List.range 3 = [0, 1, 2] :=
  ⟨pagination_stops_at_first_empty_page exNet 2 3
      (by decide) (by decide) (by decide) (by decide),
    by decide, by decide⟩

/-- C2 counterexample: with a network whose page 0 has one product, whose
page 1 errors and whose page 2 has another product, the loop stops at the
errored page — it requests only pages 0 and 1, never page 2, and returns
only page 0's product, with the `break` flag set. -/
theorem pagination_error_page_stops_cex :
    fetch_category_products_and_codes cexNet 10 = .ok
      (⟨[Val.str "X0"], [Val.vdict [("code", Val.str "X0")]], [0, 1]⟩, true)
    ∧ ¬ (2 ∈ ([0, 1] : List Nat)) :=
  ⟨rfl, by decide⟩

/-- C2 amended: a request error on page `k` yields the fallback body with
empty `matches`, and the pagination loop treats that exactly as the
end-of-pagination signal — the errored page contributes no products and
no later page is requested. -/
theorem pagination_error_page_terminates
    (net : Nat → ApiOutcome) (k fuel : Nat)
    (h1 : ∀ j, j < k → (matchesOf (get_products net j)).isEmpty = false)
    (hc : ∀ j, j < k → ∀ v ∈ matchesOf (get_products net j), isObjWithCode v = true)
    (h2 : net k = .failure)
    (hfuel : k + 1 ≤ fuel) :
    fetch_category_products_and_codes net fuel = .ok
      ({ all_codes := (List.range k).flatMap
            (fun j => (matchesOf (get_products net j)).map codeOf),
         all_products := (List.range k).flatMap
            (fun j => matchesOf (get_products net j)),
         requested := List.range (k + 1) }, true) := by
  have hempty : (matchesOf (get_products net k)).isEmpty = true := by
    simp [get_products, h2, matchesOf, alookup]
  have h := fetchLoop_char net k 0 fuel ⟨[], [], []⟩
    (fun j hj => by simpa using h1 j hj)
    (fun j hj => by simpa using hc j hj)
    (by simpa using hempty) hfuel
  simpa [fetch_category_products_and_codes, List.range_eq_range'] using h

/-- Witness for the amended C2 on the concrete error network: one good
page, then the failing page 1 ends pagination. -/
theorem pagination_error_page_terminates_witness :
    fetch_category_products_and_codes cexNet 10 = .ok
      ({ all_codes := (List.range 1).flatMap
            (fun j => (matchesOf (get_products cexNet j)).map codeOf),
         all_products := (List.range 1).flatMap
            (fun j => matchesOf (get_products cexNet j)),
         requested := List.range 2 }, true) :=
  pagination_error_page_terminates cexNet 1 10 (by decide) (by decide) rfl (by decide)

/-- C6 (documenting the code bug): when `playwright.firefox.launch`
fails — or `sync_playwright().start()` itself — the `finally` block's
`teardown_browser` reads the never-assigned `self.browser` attribute and
`Crawler.run` raises `AttributeError` instead of returning empty lists;
and even on the handled path (setup succeeded, body failed) `run`
returns the handler's single empty list, not a pair of empty lists. -/
theorem crawler_run_setup_failure_raises :
    crawlerRun ⟨true, false, true, Except.ok ([], [])⟩ = .error .attributeError
    ∧ crawlerRun ⟨false, true, true, Except.ok ([], [])⟩ = .error .attributeError
    ∧ crawlerRun ⟨true, true, true, Except.error ()⟩ = .ok .single_empty_list :=
  ⟨rfl, rfl, rfl⟩

/-- C1 counterexample: a non-2xx HTTP status on the page request does
not yield an empty record — `response.raise_for_status()` sits outside
the `try`, so `Parser.run` raises `HTTPError` to its caller on a 404. -/
theorem extract_non2xx_raises_cex :
    parserRun (FetchPage.resp 404 emptyPage) = .error .httpError := rfl

/-- C1 amended: the extractor fails closed only for errors raised by
`session.get` itself (network failure, timeout, retries-exhausted server
error), returning the empty record; a non-2xx response that the client
hands back (any 4xx/5xx status) raises `HTTPError` to the caller. -/
theorem extract_fetch_error_behavior :
    parserRun FetchPage.exn = .ok (Val.vdict [])
    ∧ (∀ (page : Page) (status : Nat), 400 ≤ status →
        parserRun (FetchPage.resp status page) = .error .httpError) := by
  refine ⟨rfl, ?_⟩
  intro page status h
  simp [parserRun, h]

/-- Witness for the amended C1 at a 404 response. -/
theorem extract_fetch_error_behavior_witness :
    400 ≤ 404 ∧ parserRun (FetchPage.resp 404 emptyPage) = .error .httpError :=
  ⟨by decide, extract_fetch_error_behavior.2 emptyPage 404 (by decide)⟩

/-- C9 (documenting the code bug): a page whose header block exists but
lacks the product-description element makes `parse_catalog` call
`normalize_spaces(None)`, which raises `AttributeError` and aborts the
whole extraction instead of omitting the missing optional field. -/
theorem header_missing_description_raises :
    parserRun (FetchPage.resp 200 pageNoDesc) = .error .attributeError := rfl

theorem drawingsBlocks_of_mem_none
    (blocks : List (Option (List (List (String × Val))))) :
    ∀ (cads imgs : List Val), Option.none ∈ blocks →
      drawingsBlocks blocks cads imgs = Option.none := by
  induction blocks with
  | nil => intro cads imgs h; simp at h
  | cons b rest ih =>
    intro cads imgs h
    match b with
    | Option.none => rfl
    | some items =>
      have hrest : Option.none ∈ rest := by
        rcases List.mem_cons.mp h with h' | h'
        · exact absurd h'.symm (by simp)
        · exact h'
      simp only [drawingsBlocks]
      exact ih _ _ hrest

/-- C7 counterexample: section extractors are not independent — on a page
whose performance tab advertises `Load Characteristics` without its data
table, the unguarded subsection parser raises `AttributeError`, and since
the tab dispatch in `Parser.run` has no exception handling the whole
extraction aborts, losing the healthy specs tab before it and preventing
the parts tab after it. -/
theorem section_failure_aborts_run_cex :
    parserRun (FetchPage.resp 200 pagePerfBroken) = .error .attributeError := rfl

/-- C7 amended: a drawings tab whose embedded JSON fails to decode yields
an empty drawings result (no exception) and sibling sections are still
extracted — shown concretely with specs and parts populated beside the
failed drawings tab; but the performance subsection parsers are
unguarded: with a `load characteristics` heading present and the data
table absent, `parse_performance` raises, and the dispatch propagates
that to the caller. -/
theorem section_extractors_amended :
    (∀ (page : Page) (dp : DrawingsPane)
        (blocks : List (Option (List (List (String × Val))))),
      page.drawingsPane = some dp → dp.cadfiles = some blocks →
      Option.none ∈ blocks → parse_drawings page = Val.vlist [])
    ∧ parserRun (FetchPage.resp 200 pageDrawBad) = .ok (Val.vdict
        [("product_id", Val.str "M1"),
          ("description", Val.str "A motor"),
          ("info", Val.vdict []),
          ("img_src", Val.null),
          ("specs", Val.vdict [("hp", Val.str "10")]),
          ("parts", Val.vlist
            [Val.vdict [("part_number", Val.str "P1"),
              ("description", Val.str "bolt"),
              ("quantity", Val.str "1.000 EA")]]),
          ("drawings", Val.vlist [])])
    ∧ (∀ (page : Page) (pp : PerfPane),
        page.performancePane = some pp →
        pp.h3s.map pyLower = ["load characteristics"] →
        pp.dataTable = Option.none →
        parse_performance page = .error .attributeError) := by
  refine ⟨?_, rfl, ?_⟩
  · intro page dp blocks hdp hcf hmem
    have hne : blocks.isEmpty = false := by
      cases blocks with
      | nil => simp at hmem
      | cons b rest => rfl
    simp [parse_drawings, hdp, hcf, hne, drawingsBlocks_of_mem_none blocks [] [] hmem]
  · intro page pp hpp hh3 hdt
    simp [parse_performance, hpp, hh3, perfDispatch, parse_load_characteristics, hdt]

/-- Witness for the amended C7: applying its universal parts at the
concrete broken pages. -/
theorem section_extractors_amended_witness :
    parse_drawings pageDrawBad = Val.vlist []
    ∧ parse_performance pagePerfBroken = .error .attributeError :=
  ⟨section_extractors_amended.1 pageDrawBad ⟨some [Option.none]⟩ [Option.none]
      rfl rfl (by simp),
    section_extractors_amended.2.2 pagePerfBroken
      ⟨[], Option.none, ["Load Characteristics"], Option.none, Option.none,
        Option.none, []⟩
      rfl (by decide) rfl⟩

/-- C4 (documenting the code bug): a record without a `drawings` section
makes `download_drawings` call `None.get("imgs", [])` and `retrieve`
raises `AttributeError` instead of yielding a manifest — contradicting the
method's own docstring ("logs appropriate warnings and returns empty
structures"); the parser's drawings decode-failure value `[]` crashes the
same way; only a record whose `drawings` is an actual dict reaches the
manifest. -/
theorem retrieve_missing_drawings_raises :
    downloaderRun [("product_id", Val.str "P1")] = .error .attributeError
    ∧ downloaderRun [("product_id", Val.str "P1"), ("drawings", Val.vlist [])]
        = .error .attributeError
    ∧ downloaderRun [("product_id", Val.str "P1"), ("drawings", Val.vdict [])]
        = .ok ([("image", Val.vlist []), ("manual", Val.vlist []),
            ("performance", Val.vlist []), ("renders", Val.vlist []),
            ("cads", Val.vlist [])],
          [("product_id", Val.str "P1"), ("drawings", Val.vdict [])]) :=
  ⟨rfl, rfl, rfl⟩

/-- C10 counterexample: `retrieve` does not leave the record unchanged —
on a record whose performance section holds one associated URL and one
performance curve, `associated_urls.extend(performance_curves_src)`
grows the record's own `associated_urls` list to two entries. -/
theorem retrieve_mutates_record_cex :
    downloaderRun (mkPerfRecord "P1" ["https://x/a.pdf"] ["https://x/b.pdf"])
      = .ok ([("image", Val.vlist []), ("manual", Val.vlist []),
          ("performance", Val.vlist
            [Val.str "assets/P1/performance_curve_0.pdf",
              Val.str "assets/P1/performance_curve_1.pdf"]),
          ("renders", Val.vlist []), ("cads", Val.vlist [])],
        mkPerfRecord "P1" ["https://x/a.pdf", "https://x/b.pdf"] ["https://x/b.pdf"])
    ∧ mkPerfRecord "P1" ["https://x/a.pdf", "https://x/b.pdf"] ["https://x/b.pdf"]
        ≠ mkPerfRecord "P1" ["https://x/a.pdf"] ["https://x/b.pdf"] :=
  ⟨rfl, fun h => absurd (congrArg assocUrlsLen h) (by decide)⟩

/-- C10 amended: the only record field `retrieve` changes is
`performance.associated_urls`, which gets the `performance_curves` list
appended in place; `product_id`, `performance_curves` themselves,
`drawings` and a record with no performance section at all come back
unchanged. -/
theorem retrieve_touches_only_associated_urls :
    (∀ (pid : String) (urls curves : List String),
      (downloaderRun (mkPerfRecord pid urls curves)).map Prod.snd
        = .ok (mkPerfRecord pid (urls ++ curves) curves))
    ∧ (∀ pid : String,
      (downloaderRun [("product_id", Val.str pid), ("drawings", Val.vdict [])]).map
          Prod.snd
        = .ok [("product_id", Val.str pid), ("drawings", Val.vdict [])]) := by
  constructor
  · intro pid urls curves
    by_cases h : urls ++ curves = []
    · obtain ⟨hu, hc⟩ := List.append_eq_nil.mp h
      subst hu hc
      rfl
    · have h2 : ¬(urls = [] ∧ curves = []) := by
        rw [← List.append_eq_nil]; exact h
      simp [downloaderRun, mkPerfRecord, download_main_image, download_product_manual,
        download_performance, download_drawings, renderPaths, cadPaths,
        vget, alookup, ainsert, vtruthy, unwrap, h2, List.map_append, Except.map]
  · intro pid
    simp [downloaderRun, download_main_image, download_product_manual,
      download_performance, download_drawings, renderPaths, cadPaths,
      vget, alookup, ainsert, vtruthy, unwrap, Except.map]

end Scraper
